import Mathlib

/-!
Verification of the vLLM-to-broker WebSocket connector
(`connector.py`): a shallow embedding of its data model and handlers,
together with theorems about the reconnect backoff, the registration
handshake, the unary and streaming completion relays, and the
per-message error containment.

Modelling conventions:
* Python values decoded by `json.loads` are modelled by the inductive
  `Json`; Python `None` and JSON `null` are both `Json.null`.
* `json.loads` itself (an external library) is a parameter
  `loads : String → Option Json`, `none` meaning the call raises
  `json.JSONDecodeError`.
* The local vLLM endpoint (an external HTTP collaborator) is a
  parameter of type `Endpoint` describing the outcome of the unary
  POST and of the streaming call for a given payload.
* Each handler returns the list of envelopes actually written to the
  websocket, in order, paired with `Option PyErr`: `some e` means the
  handler's Python coroutine terminated by raising exception `e`.
* The websocket send is modelled by the flag `conn : Bool`: when
  `false` (no usable connection), `ws.send` raises `ConnectionClosed`.
-/

namespace Connector

/-- Python/JSON values as produced by `json.loads`. Python `None` and
JSON `null` coincide (`Json.null`). Numbers are modelled as integers. -/
inductive Json where
  | null : Json
  | bool (b : Bool) : Json
  | num (n : Int) : Json
  | str (s : String) : Json
  | arr (elems : List Json) : Json
  | obj (fields : List (String × Json)) : Json

/-- Python truthiness (`if x:`) of a decoded JSON value. -/
def Json.truthy : Json → Bool
  | Json.null => false
  | Json.bool b => b
  | Json.num n => n != 0
  | Json.str s => s != ""
  | Json.arr elems => !elems.isEmpty
  | Json.obj fields => !fields.isEmpty

/-- Python `x == "lit"` for a decoded value `x`: true only when `x` is
the given string. -/
def Json.eqStr : Json → String → Bool
  | Json.str s, t => s == t
  | _, _ => false

/-- Whether the decoded value is a dict (`.get` is only an attribute of
dicts; on any other value `request.get(...)` raises `AttributeError`). -/
def Json.isObj : Json → Bool
  | Json.obj _ => true
  | _ => false

/-- Python `d.get(key)`: the value bound to `key`, `None` if absent. -/
def dictGet (fields : List (String × Json)) (key : String) : Json :=
  (fields.lookup key).getD Json.null

/-- Python `d.get(key, dflt)`. -/
def dictGetD (fields : List (String × Json)) (key : String) (dflt : Json) : Json :=
  (fields.lookup key).getD dflt

/-- Python `s.startswith(pre)`, on the character sequence of the
string (kernel-reducible model of `str.startswith`). -/
def pyStartsWith (s pre : String) : Bool :=
  pre.data.isPrefixOf s.data

/-- Python `s[n:]`, on the character sequence of the string
(kernel-reducible model of string slicing). -/
def pyDrop (s : String) (n : Nat) : String :=
  String.mk (s.data.drop n)

/-- `INITIAL_BACKOFF = 1` (connector.py line 34). -/
def INITIAL_BACKOFF : Nat := 1

/-- `MAX_BACKOFF = 60` (connector.py line 35). -/
def MAX_BACKOFF : Nat := 60

/-- `BACKOFF_MULTIPLIER = 2` (connector.py line 36). -/
def BACKOFF_MULTIPLIER : Nat := 2

/-- `MODEL_NAME` environment default (connector.py line 23). -/
def MODEL_NAME : String := "qwen3-coder-30b-a3b-fp8"

/-- The response dicts the connector builds at its `send_response` call
sites, before the `id` field is stamped on. -/
inductive Response where
  | chatCompletionResponse (data : Json) : Response
  | streamChunk (data : Json) : Response
  | streamEnd : Response
  | modelsResponse (model : String) : Response
  | pong : Response
  | error (msg : String) : Response

/-- One envelope written to the websocket: either the registration
message (`register_models`) or an id-stamped response (`send_response`). -/
inductive Outbound where
  | register (models : List String) : Outbound
  | response (request_id : Json) (r : Response) : Outbound

/-- Python exceptions relevant to the connector's control flow. -/
inductive PyErr where
  | httpStatus (code : Nat) : PyErr
  | jsonDecode : PyErr
  | connectionClosed : PyErr
  | attributeError (msg : String) : PyErr
  | unboundLocal : PyErr
  | other (msg : String) : PyErr
deriving DecidableEq

/-- Model of Python `str(e)` for the exceptions above (the exact text of
library exception messages is not observable in this embedding). -/
def PyErr.str : PyErr → String
  | PyErr.httpStatus code => "HTTP status error " ++ toString code
  | PyErr.jsonDecode => "Expecting value"
  | PyErr.connectionClosed => "WebSocket connection closed"
  | PyErr.attributeError msg => msg
  | PyErr.unboundLocal => "local variable referenced before assignment"
  | PyErr.other msg => msg

/-- `send_response` (connector.py lines 174-177): stamps
`response["id"] = request_id` and sends. When no usable connection is
active (`conn = false`) the underlying `ws.send` raises
`ConnectionClosed` and nothing is sent. -/
def send_response (conn : Bool) (request_id : Json) (r : Response) :
    List Outbound × Option PyErr :=
  if conn then ([Outbound.response request_id r], none)
  else ([], some PyErr.connectionClosed)

/-- `send_error` (connector.py lines 179-184). -/
def send_error (conn : Bool) (request_id : Json) (msg : String) :
    List Outbound × Option PyErr :=
  send_response conn request_id (Response.error msg)

/-- Outcome of the unary `http_client.post` + `raise_for_status()` +
`response.json()` sequence against the local endpoint:
`success body` (2xx with decodable body), `statusError code`
(`raise_for_status` raises `httpx.HTTPStatusError`), or `otherError`
(network failure, undecodable body, ... — any other exception). -/
inductive PostOutcome where
  | success (body : Json) : PostOutcome
  | statusError (code : Nat) : PostOutcome
  | otherError (msg : String) : PostOutcome

/-- Outcome of the streaming `http_client.stream` call:
`openFail` (opening the stream raises), `statusFail`
(`raise_for_status` raises `httpx.HTTPStatusError`), or
`yields ls interrupt` (the line iterator produces `ls` and then either
finishes cleanly (`interrupt = none`) or raises (`some msg`)). -/
inductive StreamOutcome where
  | openFail (msg : String) : StreamOutcome
  | statusFail (code : Nat) : StreamOutcome
  | yields (ls : List String) (interrupt : Option String) : StreamOutcome

/-- The local vLLM endpoint, as an external collaborator: what each kind
of call does for a given request payload. -/
structure Endpoint where
  post : Json → PostOutcome
  streaming : Json → StreamOutcome

/-- The SSE line loop of `handle_streaming_completion` (connector.py
lines 146-158): skip lines not starting with `"data: "`; on
`"[DONE]"` send one `stream_end` and break; otherwise `json.loads` the
data (raising `json.JSONDecodeError` on failure, which aborts the
loop) and send one `stream_chunk`. `interrupt` is the exception the
line iterator raises after yielding the whole list, if any. -/
def processLines (conn : Bool) (loads : String → Option Json) (request_id : Json)
    (interrupt : Option PyErr) : List String → List Outbound × Option PyErr
  | [] => ([], interrupt)
  | line :: rest =>
    if pyStartsWith line "data: " then
      let data := pyDrop line 6
      if data = "[DONE]" then
        send_response conn request_id Response.streamEnd
      else
        match loads data with
        | none => ([], some PyErr.jsonDecode)
        | some j =>
          let s := send_response conn request_id (Response.streamChunk j)
          match s.2 with
          | some e => (s.1, some e)
          | none =>
            let t := processLines conn loads request_id interrupt rest
            (s.1 ++ t.1, t.2)
    else processLines conn loads request_id interrupt rest

/-- `handle_streaming_completion` (connector.py lines 141-158). -/
def handle_streaming_completion (conn : Bool) (loads : String → Option Json)
    (request_id : Json) (so : StreamOutcome) : List Outbound × Option PyErr :=
  match so with
  | StreamOutcome.openFail msg => ([], some (PyErr.other msg))
  | StreamOutcome.statusFail code => ([], some (PyErr.httpStatus code))
  | StreamOutcome.yields ls interrupt =>
    processLines conn loads request_id (interrupt.map PyErr.other) ls

/-- `handle_chat_completion` (connector.py lines 114-139).
`payload.get("stream", False)` is evaluated outside the `try`, so a
non-dict payload raises `AttributeError` out of this coroutine. Inside
the `try`, `httpx.HTTPStatusError` is converted to an
`"LLM error: <code>"` error envelope and any other exception to an
error envelope carrying `str(e)`. -/
def handle_chat_completion (conn : Bool) (loads : String → Option Json)
    (ep : Endpoint) (request_id : Json) (payload : Json) :
    List Outbound × Option PyErr :=
  match payload with
  | Json.obj fields =>
    let stream := (dictGetD fields "stream" (Json.bool false)).truthy
    let body :=
      if stream then
        handle_streaming_completion conn loads request_id (ep.streaming (Json.obj fields))
      else
        match ep.post (Json.obj fields) with
        | PostOutcome.success data =>
          send_response conn request_id (Response.chatCompletionResponse data)
        | PostOutcome.statusError code => ([], some (PyErr.httpStatus code))
        | PostOutcome.otherError msg => ([], some (PyErr.other msg))
    match body.2 with
    | none => (body.1, none)
    | some (PyErr.httpStatus code) =>
      let s := send_error conn request_id ("LLM error: " ++ toString code)
      (body.1 ++ s.1, s.2)
    | some e =>
      let s := send_error conn request_id (PyErr.str e)
      (body.1 ++ s.1, s.2)
  | _ => ([], some (PyErr.attributeError "object has no attribute get"))

/-- `handle_models_request` (connector.py lines 160-172). -/
def handle_models_request (conn : Bool) (request_id : Json) :
    List Outbound × Option PyErr :=
  send_response conn request_id (Response.modelsResponse MODEL_NAME)

/-- `handle_message` (connector.py lines 91-112). `json.loads` failure
is logged and swallowed; a decoded non-dict raises `AttributeError` at
`request.get("id")`, after which the `except Exception` block itself
raises `UnboundLocalError` at `if request_id:` (the name was never
bound), so the task dies with no envelope sent. For a dict, any
exception from the routed handler is caught and, when `request_id` is
truthy, answered with one error envelope. -/
def handle_message (conn : Bool) (loads : String → Option Json) (ep : Endpoint)
    (message : String) : List Outbound × Option PyErr :=
  match loads message with
  | none => ([], none)
  | some (Json.obj fields) =>
    let request_id := dictGet fields "id"
    let request_type := dictGet fields "type"
    let body :=
      if request_type.eqStr "chat_completion" then
        handle_chat_completion conn loads ep request_id
          (dictGetD fields "payload" (Json.obj []))
      else if request_type.eqStr "models" then
        handle_models_request conn request_id
      else if request_type.eqStr "ping" then
        send_response conn request_id Response.pong
      else ([], none)
    match body.2 with
    | none => (body.1, none)
    | some e =>
      if request_id.truthy then
        let s := send_error conn request_id (PyErr.str e)
        (body.1 ++ s.1, s.2)
      else (body.1, none)
  | some _ => ([], some PyErr.unboundLocal)

/-- `connect_and_serve` (connector.py lines 65-80), restricted to a
successfully established connection that stays usable: after the
connect, `register_models` sends the one registration envelope, then
the dispatch loop spawns one `handle_message` task per inbound message
(a task's uncaught exception is swallowed by the event loop and does
not stop the dispatch loop). The envelope trace is shown under the
sequential task schedule. -/
def connect_and_serve (loads : String → Option Json) (ep : Endpoint)
    (msgs : List String) : List Outbound :=
  Outbound.register [ MODEL_NAME ] ::
    (msgs.map fun m => (handle_message true loads ep m).1).flatten

/-- Outcome of one `connect_and_serve` call as seen by the `start`
loop: the websocket connect itself fails (`connectFail`), the connect
succeeds but the registration send raises (`registerFail`), or the
connection serves and then drops (`serveDrop`). -/
inductive Attempt where
  | connectFail : Attempt
  | registerFail : Attempt
  | serveDrop : Attempt
deriving DecidableEq

/-- Effect of one `connect_and_serve` call on `self.backoff`: the reset
`self.backoff = INITIAL_BACKOFF` (connector.py line 72) runs as soon as
the websocket connect succeeds — before `register_models` — so every
attempt other than `connectFail` resets the backoff. -/
def resetOnConnect (backoff : Nat) : Attempt → Nat
  | Attempt.connectFail => backoff
  | Attempt.registerFail => INITIAL_BACKOFF
  | Attempt.serveDrop => INITIAL_BACKOFF

/-- The `while True` reconnect loop of `start` (connector.py lines
53-63): after each attempt it sleeps `self.backoff` seconds and then
sets `self.backoff = min(self.backoff * BACKOFF_MULTIPLIER, MAX_BACKOFF)`.
Returns the sequence of sleep delays for a given sequence of attempt
outcomes. -/
def startLoop (backoff : Nat) : List Attempt → List Nat
  | [] => []
  | a :: rest =>
    let b := resetOnConnect backoff a
    b :: startLoop (min (b * BACKOFF_MULTIPLIER) MAX_BACKOFF) rest

/-- Python truthiness of `os.getenv(...)`: `None` (unset) and the empty
string are falsy. -/
def envTruthy : Option String → Bool
  | none => false
  | some s => s != ""

/-- Observable fate of `start`: either the process exited with a code
after a number of connection attempts, or it is still running its
reconnect loop having slept the recorded delays. -/
inductive StartResult where
  | exited (code : Nat) (connectionAttempts : Nat) : StartResult
  | running (delays : List Nat) : StartResult

/-- `Connector.start` (connector.py lines 45-63): if `BROKER_WS_URL` or
`CONNECTOR_TOKEN` is unset or empty, `sys.exit(1)` before any
connection attempt; otherwise loop forever over connection attempts. -/
def start (BROKER_WS_URL CONNECTOR_TOKEN : Option String)
    (attempts : List Attempt) : StartResult :=
  if !envTruthy BROKER_WS_URL || !envTruthy CONNECTOR_TOKEN then
    StartResult.exited 1 0
  else
    StartResult.running (startLoop INITIAL_BACKOFF attempts)

/-- Chunk payload carried by an envelope, if it is a `stream_chunk`. -/
def Outbound.chunkData : Outbound → Option Json
  | Outbound.response _ (Response.streamChunk j) => some j
  | _ => none

/-- Whether an envelope is an `error` response. -/
def Outbound.isError : Outbound → Bool
  | Outbound.response _ (Response.error _) => true
  | _ => false

/-- Whether an envelope is a `stream_end` response. -/
def Outbound.isStreamEnd : Outbound → Bool
  | Outbound.response _ Response.streamEnd => true
  | _ => false

/-- Whether an envelope is a unary `chat_completion_response`. -/
def Outbound.isResult : Outbound → Bool
  | Outbound.response _ (Response.chatCompletionResponse _) => true
  | _ => false

/-- Whether an envelope terminates a streaming job (`stream_end` or
`error`). -/
def Outbound.isTerminal (o : Outbound) : Bool :=
  o.isStreamEnd || o.isError

/-- Whether an envelope is the registration message. -/
def Outbound.isRegister : Outbound → Bool
  | Outbound.register _ => true
  | _ => false

/-- Spec-side (follows the claims' words, for comparison with the code):
the incremental units the forwarder receives from the endpoint before
the stream's terminal event (an end-of-stream `"[DONE]"` signal or a
parse failure), in arrival order. -/
def specUnitsReceived (loads : String → Option Json) : List String → List Json
  | [] => []
  | line :: rest =>
    if pyStartsWith line "data: " then
      let data := pyDrop line 6
      if data = "[DONE]" then []
      else
        match loads data with
        | none => []
        | some j => j :: specUnitsReceived loads rest
    else specUnitsReceived loads rest

/-- Spec-side: whether the endpoint's end-of-stream signal (`"[DONE]"`)
is reached before any undecodable chunk. -/
def specDoneReached (loads : String → Option Json) : List String → Bool
  | [] => false
  | line :: rest =>
    if pyStartsWith line "data: " then
      let data := pyDrop line 6
      if data = "[DONE]" then true
      else
        match loads data with
        | none => false
        | some _ => specDoneReached loads rest
    else specDoneReached loads rest

/-- Spec-side: whether an undecodable chunk payload is hit before any
end-of-stream signal. -/
def specParseAbort (loads : String → Option Json) : List String → Bool
  | [] => false
  | line :: rest =>
    if pyStartsWith line "data: " then
      let data := pyDrop line 6
      if data = "[DONE]" then false
      else
        match loads data with
        | none => true
        | some _ => specParseAbort loads rest
    else specParseAbort loads rest

/-- Spec-side: the units received over a whole streaming call. -/
def specUnitsOf (loads : String → Option Json) : StreamOutcome → List Json
  | StreamOutcome.yields ls _ => specUnitsReceived loads ls
  | _ => []

/-- Spec-side: whether the end-of-stream signal is received over a whole
streaming call. -/
def specSignalOf (loads : String → Option Json) : StreamOutcome → Bool
  | StreamOutcome.yields ls _ => specDoneReached loads ls
  | _ => false

/-- Spec-side: whether the stream is interrupted before the
end-of-stream signal (failed open, failed status, undecodable chunk, or
the line iterator raising) per the claims' words. -/
def specInterrupted (loads : String → Option Json) : StreamOutcome → Bool
  | StreamOutcome.openFail _ => true
  | StreamOutcome.statusFail _ => true
  | StreamOutcome.yields ls interrupt =>
    specParseAbort loads ls ||
      (!specDoneReached loads ls && interrupt.isSome)

/-- Shorthand for the `stream_chunk` envelopes carrying the given data,
in order, for one request id. -/
def chunkEnvs (request_id : Json) (cs : List Json) : List Outbound :=
  cs.map fun j => Outbound.response request_id (Response.streamChunk j)

section ProcessLinesLemmas

variable (loads : String → Option Json) (request_id : Json)

theorem processLines_done (interrupt : Option PyErr) :
    ∀ ls : List String, specDoneReached loads ls = true →
      processLines true loads request_id interrupt ls =
        (chunkEnvs request_id (specUnitsReceived loads ls) ++
          [Outbound.response request_id Response.streamEnd], none)
  | [], h => by simp [specDoneReached] at h
  | line :: rest, h => by
    by_cases hd : pyStartsWith line "data: "
    · by_cases hdone : pyDrop line 6 = "[DONE]"
      · simp [processLines, specUnitsReceived, hd, hdone, send_response, chunkEnvs]
      · cases hl : loads (pyDrop line 6) with
        | none =>
          rw [specDoneReached, if_pos hd, if_neg hdone, hl] at h
          exact absurd h (by simp)
        | some j =>
          rw [specDoneReached, if_pos hd, if_neg hdone, hl] at h
          have ih := processLines_done interrupt rest h
          simp [processLines, specUnitsReceived, hd, hdone, hl, send_response,
            chunkEnvs, ih]
    · rw [specDoneReached, if_neg hd] at h
      have ih := processLines_done interrupt rest h
      simp [processLines, specUnitsReceived, hd, ih]

theorem processLines_abort (interrupt : Option PyErr) :
    ∀ ls : List String, specParseAbort loads ls = true →
      processLines true loads request_id interrupt ls =
        (chunkEnvs request_id (specUnitsReceived loads ls), some PyErr.jsonDecode)
  | [], h => by simp [specParseAbort] at h
  | line :: rest, h => by
    by_cases hd : pyStartsWith line "data: "
    · by_cases hdone : pyDrop line 6 = "[DONE]"
      · rw [specParseAbort, if_pos hd, if_pos hdone] at h
        exact absurd h (by simp)
      · cases hl : loads (pyDrop line 6) with
        | none =>
          simp [processLines, specUnitsReceived, hd, hdone, hl, chunkEnvs]
        | some j =>
          rw [specParseAbort, if_pos hd, if_neg hdone, hl] at h
          have ih := processLines_abort interrupt rest h
          simp [processLines, specUnitsReceived, hd, hdone, hl, send_response,
            chunkEnvs, ih]
    · rw [specParseAbort, if_neg hd] at h
      have ih := processLines_abort interrupt rest h
      simp [processLines, specUnitsReceived, hd, ih]

theorem processLines_clean (interrupt : Option PyErr) :
    ∀ ls : List String, specDoneReached loads ls = false →
      specParseAbort loads ls = false →
      processLines true loads request_id interrupt ls =
        (chunkEnvs request_id (specUnitsReceived loads ls), interrupt)
  | [], _, _ => by simp [processLines, specUnitsReceived, chunkEnvs]
  | line :: rest, h1, h2 => by
    by_cases hd : pyStartsWith line "data: "
    · by_cases hdone : pyDrop line 6 = "[DONE]"
      · rw [specDoneReached, if_pos hd, if_pos hdone] at h1
        exact absurd h1 (by simp)
      · cases hl : loads (pyDrop line 6) with
        | none =>
          rw [specParseAbort, if_pos hd, if_neg hdone, hl] at h2
          exact absurd h2 (by simp)
        | some j =>
          rw [specDoneReached, if_pos hd, if_neg hdone, hl] at h1
          rw [specParseAbort, if_pos hd, if_neg hdone, hl] at h2
          have ih := processLines_clean interrupt rest h1 h2
          simp [processLines, specUnitsReceived, hd, hdone, hl, send_response,
            chunkEnvs, ih]
    · rw [specDoneReached, if_neg hd] at h1
      rw [specParseAbort, if_neg hd] at h2
      have ih := processLines_clean interrupt rest h1 h2
      simp [processLines, specUnitsReceived, hd, ih]

end ProcessLinesLemmas

theorem specDone_not_abort (loads : String → Option Json) :
    ∀ ls : List String, specDoneReached loads ls = true →
      specParseAbort loads ls = false
  | [], h => by simp [specDoneReached] at h
  | line :: rest, h => by
    by_cases hd : pyStartsWith line "data: "
    · by_cases hdone : pyDrop line 6 = "[DONE]"
      · simp [specParseAbort, hd, hdone]
      · cases hl : loads (pyDrop line 6) with
        | none =>
          rw [specDoneReached, if_pos hd, if_neg hdone, hl] at h
          exact absurd h (by simp)
        | some j =>
          rw [specDoneReached, if_pos hd, if_neg hdone, hl] at h
          rw [specParseAbort, if_pos hd, if_neg hdone, hl]
          exact specDone_not_abort loads rest h
    · rw [specDoneReached, if_neg hd] at h
      rw [specParseAbort, if_neg hd]
      exact specDone_not_abort loads rest h

theorem chunkEnvs_filterMap_chunkData (request_id : Json) (cs : List Json) :
    (chunkEnvs request_id cs).filterMap Outbound.chunkData = cs := by
  induction cs with
  | nil => rfl
  | cons c cs ih =>
    simpa [chunkEnvs, List.filterMap_cons, Outbound.chunkData] using ih

theorem chunkEnvs_isTerminal_false (request_id : Json) (cs : List Json) :
    ∀ o ∈ chunkEnvs request_id cs, Outbound.isTerminal o = false := by
  intro o ho
  simp only [chunkEnvs, List.mem_map] at ho
  obtain ⟨j, _, rfl⟩ := ho
  rfl

theorem chunkEnvs_filter_isTerminal (request_id : Json) (cs : List Json) :
    (chunkEnvs request_id cs).filter Outbound.isTerminal = [] := by
  induction cs with
  | nil => rfl
  | cons c cs ih => simp [chunkEnvs, Outbound.isTerminal, Outbound.isStreamEnd,
      Outbound.isError, List.filter_cons, ih]

theorem chunkEnvs_filter_isError (request_id : Json) (cs : List Json) :
    (chunkEnvs request_id cs).filter Outbound.isError = [] := by
  induction cs with
  | nil => rfl
  | cons c cs ih => simp [chunkEnvs, Outbound.isError, List.filter_cons, ih]

theorem streamEnd_not_mem_chunkEnvs (rid rid' : Json) (cs : List Json) :
    Outbound.response rid Response.streamEnd ∉ chunkEnvs rid' cs := by
  simp [chunkEnvs]

/-- Case characterization of one streaming job's envelope output
(`handle_chat_completion` with a truthy `stream` flag, connection up),
by the outcome of the endpoint's streaming call. -/
theorem streamJob_char (loads : String → Option Json) (ep : Endpoint)
    (request_id : Json) (fields : List (String × Json))
    (hs : (dictGetD fields "stream" (Json.bool false)).truthy = true) :
    (∃ m, ep.streaming (Json.obj fields) = StreamOutcome.openFail m ∧
      handle_chat_completion true loads ep request_id (Json.obj fields) =
        ([Outbound.response request_id (Response.error m)], none))
  ∨ (∃ c, ep.streaming (Json.obj fields) = StreamOutcome.statusFail c ∧
      handle_chat_completion true loads ep request_id (Json.obj fields) =
        ([Outbound.response request_id
            (Response.error ("LLM error: " ++ toString c))], none))
  ∨ (∃ ls intr, ep.streaming (Json.obj fields) = StreamOutcome.yields ls intr ∧
      specDoneReached loads ls = true ∧
      handle_chat_completion true loads ep request_id (Json.obj fields) =
        (chunkEnvs request_id (specUnitsReceived loads ls) ++
          [Outbound.response request_id Response.streamEnd], none))
  ∨ (∃ ls intr, ep.streaming (Json.obj fields) = StreamOutcome.yields ls intr ∧
      specParseAbort loads ls = true ∧
      handle_chat_completion true loads ep request_id (Json.obj fields) =
        (chunkEnvs request_id (specUnitsReceived loads ls) ++
          [Outbound.response request_id
            (Response.error (PyErr.str PyErr.jsonDecode))], none))
  ∨ (∃ ls m, ep.streaming (Json.obj fields) = StreamOutcome.yields ls (some m) ∧
      specDoneReached loads ls = false ∧ specParseAbort loads ls = false ∧
      handle_chat_completion true loads ep request_id (Json.obj fields) =
        (chunkEnvs request_id (specUnitsReceived loads ls) ++
          [Outbound.response request_id (Response.error m)], none))
  ∨ (∃ ls, ep.streaming (Json.obj fields) = StreamOutcome.yields ls none ∧
      specDoneReached loads ls = false ∧ specParseAbort loads ls = false ∧
      handle_chat_completion true loads ep request_id (Json.obj fields) =
        (chunkEnvs request_id (specUnitsReceived loads ls), none)) := by
  cases hso : ep.streaming (Json.obj fields) with
  | openFail m =>
    refine Or.inl ⟨m, rfl, ?_⟩
    simp [handle_chat_completion, hs, hso, handle_streaming_completion,
      send_error, send_response, PyErr.str]
  | statusFail c =>
    refine Or.inr (Or.inl ⟨c, rfl, ?_⟩)
    simp [handle_chat_completion, hs, hso, handle_streaming_completion,
      send_error, send_response]
  | yields ls intr =>
    cases hdone : specDoneReached loads ls with
    | true =>
      refine Or.inr (Or.inr (Or.inl ⟨ls, intr, rfl, hdone, ?_⟩))
      simp [handle_chat_completion, hs, hso, handle_streaming_completion,
        processLines_done loads request_id (intr.map PyErr.other) ls hdone]
    | false =>
      cases habort : specParseAbort loads ls with
      | true =>
        refine Or.inr (Or.inr (Or.inr (Or.inl ⟨ls, intr, rfl, habort, ?_⟩)))
        simp [handle_chat_completion, hs, hso, handle_streaming_completion,
          processLines_abort loads request_id (intr.map PyErr.other) ls habort,
          send_error, send_response]
      | false =>
        cases intr with
        | some m =>
          refine Or.inr (Or.inr (Or.inr (Or.inr (Or.inl
            ⟨ls, m, rfl, hdone, habort, ?_⟩))))
          simp [handle_chat_completion, hs, hso, handle_streaming_completion,
            processLines_clean loads request_id (some (PyErr.other m))
              ls hdone habort,
            send_error, send_response, PyErr.str]
        | none =>
          refine Or.inr (Or.inr (Or.inr (Or.inr (Or.inr
            ⟨ls, rfl, hdone, habort, ?_⟩))))
          simp [handle_chat_completion, hs, hso, handle_streaming_completion,
            processLines_clean loads request_id none ls hdone habort]

/-- C1: for every streaming job, the `stream_chunk` envelopes are
emitted in exactly the order the corresponding incremental units are
received from the endpoint; at most one terminal envelope
(`stream_end` or `error`) is emitted, and only in last position;
`stream_end` is emitted exactly when the endpoint's end-of-stream
signal is received; and when the stream is interrupted before that
signal, exactly one `error` (and no `stream_end`) is emitted. -/
theorem C1_streaming_order_and_terminal (loads : String → Option Json)
    (ep : Endpoint) (request_id : Json) (fields : List (String × Json))
    (hs : (dictGetD fields "stream" (Json.bool false)).truthy = true) :
    (handle_chat_completion true loads ep request_id
        (Json.obj fields)).1.filterMap Outbound.chunkData =
      specUnitsOf loads (ep.streaming (Json.obj fields))
    ∧ (∀ o ∈ (handle_chat_completion true loads ep request_id
        (Json.obj fields)).1.dropLast, o.isTerminal = false)
    ∧ ((handle_chat_completion true loads ep request_id
        (Json.obj fields)).1.filter Outbound.isTerminal).length ≤ 1
    ∧ (Outbound.response request_id Response.streamEnd ∈
        (handle_chat_completion true loads ep request_id (Json.obj fields)).1 ↔
          specSignalOf loads (ep.streaming (Json.obj fields)) = true)
    ∧ (specInterrupted loads (ep.streaming (Json.obj fields)) = true →
        ((handle_chat_completion true loads ep request_id
          (Json.obj fields)).1.filter Outbound.isError).length = 1 ∧
        Outbound.response request_id Response.streamEnd ∉
          (handle_chat_completion true loads ep request_id (Json.obj fields)).1) := by
  rcases streamJob_char loads ep request_id fields hs with
    ⟨m, hso, heq⟩ | ⟨c, hso, heq⟩ | ⟨ls, intr, hso, hdone, heq⟩ |
    ⟨ls, intr, hso, habort, heq⟩ | ⟨ls, m, hso, hdone, habort, heq⟩ |
    ⟨ls, hso, hdone, habort, heq⟩
  · rw [hso, heq]
    refine ⟨?_, ?_, ?_, ?_, ?_⟩
    · simp [specUnitsOf, Outbound.chunkData]
    · simp
    · simp [Outbound.isTerminal, Outbound.isError, Outbound.isStreamEnd]
    · simp [specSignalOf]
    · intro _
      exact ⟨by simp [Outbound.isError], by simp⟩
  · rw [hso, heq]
    refine ⟨?_, ?_, ?_, ?_, ?_⟩
    · simp [specUnitsOf, Outbound.chunkData]
    · simp
    · simp [Outbound.isTerminal, Outbound.isError, Outbound.isStreamEnd]
    · simp [specSignalOf]
    · intro _
      exact ⟨by simp [Outbound.isError], by simp⟩
  · rw [hso, heq]
    refine ⟨?_, ?_, ?_, ?_, ?_⟩
    · simp [List.filterMap_append, chunkEnvs_filterMap_chunkData,
        Outbound.chunkData, specUnitsOf]
    · rw [List.dropLast_concat]
      exact chunkEnvs_isTerminal_false request_id _
    · rw [List.filter_append, chunkEnvs_filter_isTerminal]
      simp [Outbound.isTerminal, Outbound.isStreamEnd]
    · simp [List.mem_append, streamEnd_not_mem_chunkEnvs request_id request_id _,
        specSignalOf, hdone]
    · intro h
      rw [specInterrupted, specDone_not_abort loads ls hdone, hdone] at h
      simp at h
  · have hdone : specDoneReached loads ls = false := by
      cases hdone : specDoneReached loads ls with
      | false => rfl
      | true => rw [specDone_not_abort loads ls hdone] at habort; simp at habort
    rw [hso, heq]
    refine ⟨?_, ?_, ?_, ?_, ?_⟩
    · simp [List.filterMap_append, chunkEnvs_filterMap_chunkData,
        Outbound.chunkData, specUnitsOf]
    · rw [List.dropLast_concat]
      exact chunkEnvs_isTerminal_false request_id _
    · rw [List.filter_append, chunkEnvs_filter_isTerminal]
      simp [Outbound.isTerminal, Outbound.isStreamEnd, Outbound.isError]
    · simp [List.mem_append, streamEnd_not_mem_chunkEnvs request_id request_id _,
        specSignalOf, hdone]
    · intro _
      constructor
      · rw [List.filter_append, chunkEnvs_filter_isError]
        simp [Outbound.isError]
      · simp [List.mem_append, streamEnd_not_mem_chunkEnvs request_id request_id _]
  · rw [hso, heq]
    refine ⟨?_, ?_, ?_, ?_, ?_⟩
    · simp [List.filterMap_append, chunkEnvs_filterMap_chunkData,
        Outbound.chunkData, specUnitsOf]
    · rw [List.dropLast_concat]
      exact chunkEnvs_isTerminal_false request_id _
    · rw [List.filter_append, chunkEnvs_filter_isTerminal]
      simp [Outbound.isTerminal, Outbound.isStreamEnd, Outbound.isError]
    · simp [List.mem_append, streamEnd_not_mem_chunkEnvs request_id request_id _,
        specSignalOf, hdone]
    · intro _
      constructor
      · rw [List.filter_append, chunkEnvs_filter_isError]
        simp [Outbound.isError]
      · simp [List.mem_append, streamEnd_not_mem_chunkEnvs request_id request_id _]
  · rw [hso, heq]
    refine ⟨?_, ?_, ?_, ?_, ?_⟩
    · simp [chunkEnvs_filterMap_chunkData, specUnitsOf]
    · intro o ho
      exact chunkEnvs_isTerminal_false request_id _ o (List.dropLast_sublist _ |>.mem ho)
    · rw [chunkEnvs_filter_isTerminal]
      simp
    · simp [streamEnd_not_mem_chunkEnvs request_id request_id _, specSignalOf, hdone]
    · intro h
      rw [specInterrupted, hdone, habort] at h
      simp at h

/-- External-collaborator instance for the C1 witness. -/
def loadsC1 : String → Option Json := fun s =>
  if s = "1" then some (Json.num 1)
  else if s = "2" then some (Json.num 2)
  else none

/-- Endpoint instance for the C1 witness: yields two chunks, a non-data
line, then the end-of-stream signal. -/
def epC1 : Endpoint where
  post := fun _ => PostOutcome.otherError "unused"
  streaming := fun _ =>
    StreamOutcome.yields ["data: 1", "event: keepalive", "data: 2", "data: [DONE]"] none

/-- Request fields for the C1 witness. -/
def fieldsC1 : List (String × Json) := [("stream", Json.bool true)]

/-- Witness for C1 at a concrete streaming job. -/
theorem C1_witness :
    (dictGetD fieldsC1 "stream" (Json.bool false)).truthy = true
    ∧ ((handle_chat_completion true loadsC1 epC1 (Json.str "a2")
          (Json.obj fieldsC1)).1.filterMap Outbound.chunkData =
        specUnitsOf loadsC1 (epC1.streaming (Json.obj fieldsC1))
      ∧ (∀ o ∈ (handle_chat_completion true loadsC1 epC1 (Json.str "a2")
          (Json.obj fieldsC1)).1.dropLast, o.isTerminal = false)
      ∧ ((handle_chat_completion true loadsC1 epC1 (Json.str "a2")
          (Json.obj fieldsC1)).1.filter Outbound.isTerminal).length ≤ 1
      ∧ (Outbound.response (Json.str "a2") Response.streamEnd ∈
          (handle_chat_completion true loadsC1 epC1 (Json.str "a2")
            (Json.obj fieldsC1)).1 ↔
            specSignalOf loadsC1 (epC1.streaming (Json.obj fieldsC1)) = true)
      ∧ (specInterrupted loadsC1 (epC1.streaming (Json.obj fieldsC1)) = true →
          ((handle_chat_completion true loadsC1 epC1 (Json.str "a2")
            (Json.obj fieldsC1)).1.filter Outbound.isError).length = 1 ∧
          Outbound.response (Json.str "a2") Response.streamEnd ∉
            (handle_chat_completion true loadsC1 epC1 (Json.str "a2")
              (Json.obj fieldsC1)).1)) :=
  ⟨rfl, C1_streaming_order_and_terminal loadsC1 epC1 (Json.str "a2") fieldsC1 rfl⟩

/-- External-collaborator instance for C3: `json.loads` succeeds on the
two well-formed chunk payloads and fails on `"not json"`. -/
def loadsC3 : String → Option Json := fun s =>
  if s = "42" then some (Json.num 42)
  else if s = "7" then some (Json.num 7)
  else none

/-- Endpoint instance for C3: one good chunk, one undecodable chunk,
another good chunk, then the end-of-stream signal. -/
def epC3 : Endpoint where
  post := fun _ => PostOutcome.otherError "unused"
  streaming := fun _ =>
    StreamOutcome.yields
      ["data: 42", "data: not json", "data: 7", "data: [DONE]"] none

/-- Request fields for the C3 scenario. -/
def fieldsC3 : List (String × Json) := [("stream", Json.bool true)]

/-- C3 counterexample: with chunks `42`, `not json`, `7`, `[DONE]`, the
undecodable chunk is not skipped — the job's output is the first chunk
followed by one error envelope; the subsequent chunk `7` is never
forwarded and no `stream_end` is emitted, so the stream is aborted. -/
theorem C3_counterexample :
    handle_chat_completion true loadsC3 epC3 (Json.str "a3") (Json.obj fieldsC3) =
      ([Outbound.response (Json.str "a3") (Response.streamChunk (Json.num 42)),
        Outbound.response (Json.str "a3")
          (Response.error (PyErr.str PyErr.jsonDecode))], none)
    ∧ Outbound.response (Json.str "a3") (Response.streamChunk (Json.num 7)) ∉
        (handle_chat_completion true loadsC3 epC3 (Json.str "a3")
          (Json.obj fieldsC3)).1
    ∧ Outbound.response (Json.str "a3") Response.streamEnd ∉
        (handle_chat_completion true loadsC3 epC3 (Json.str "a3")
          (Json.obj fieldsC3)).1 := by
  have h : handle_chat_completion true loadsC3 epC3 (Json.str "a3")
      (Json.obj fieldsC3) =
      ([Outbound.response (Json.str "a3") (Response.streamChunk (Json.num 42)),
        Outbound.response (Json.str "a3")
          (Response.error (PyErr.str PyErr.jsonDecode))], none) := by rfl
  refine ⟨h, ?_, ?_⟩ <;> rw [h] <;> simp

/-- C3 corrected: an incremental chunk payload that fails to parse as
structured data is not skipped: the decode exception aborts the
stream, so the job's envelopes are exactly the chunks received before
the failure followed by one `error` envelope; no later chunk is
forwarded and no `stream_end` is emitted. -/
theorem C3_amended_parse_abort (loads : String → Option Json) (ep : Endpoint)
    (request_id : Json) (fields : List (String × Json)) (ls : List String)
    (intr : Option String)
    (hs : (dictGetD fields "stream" (Json.bool false)).truthy = true)
    (hso : ep.streaming (Json.obj fields) = StreamOutcome.yields ls intr)
    (habort : specParseAbort loads ls = true) :
    handle_chat_completion true loads ep request_id (Json.obj fields) =
      (chunkEnvs request_id (specUnitsReceived loads ls) ++
        [Outbound.response request_id
          (Response.error (PyErr.str PyErr.jsonDecode))], none) := by
  simp [handle_chat_completion, hs, hso, handle_streaming_completion,
    processLines_abort loads request_id (intr.map PyErr.other) ls habort,
    send_error, send_response]

/-- Witness for the corrected C3 at the concrete scenario of the
counterexample. -/
theorem C3_witness :
    (dictGetD fieldsC3 "stream" (Json.bool false)).truthy = true
    ∧ epC3.streaming (Json.obj fieldsC3) =
        StreamOutcome.yields
          ["data: 42", "data: not json", "data: 7", "data: [DONE]"] none
    ∧ specParseAbort loadsC3
        ["data: 42", "data: not json", "data: 7", "data: [DONE]"] = true
    ∧ handle_chat_completion true loadsC3 epC3 (Json.str "a3")
        (Json.obj fieldsC3) =
      (chunkEnvs (Json.str "a3")
          (specUnitsReceived loadsC3
            ["data: 42", "data: not json", "data: 7", "data: [DONE]"]) ++
        [Outbound.response (Json.str "a3")
          (Response.error (PyErr.str PyErr.jsonDecode))], none) :=
  ⟨rfl, rfl, rfl,
    C3_amended_parse_abort loadsC3 epC3 (Json.str "a3") fieldsC3 _ none
      rfl rfl rfl⟩

/-- C2 counterexample: after one consecutive failed attempt the code's
delay before attempt 2 is 1 second, not `min(1 * 2^1, 60) = 2`; and a
run where the third attempt connects but fails during registration
(`Serving` never reached) still resets the delay to 1, so the delays
are `[1, 2, 1]` where the claim requires the non-reset value
`min(1 * 2^3, 60) = 8` before attempt 4. -/
theorem C2_counterexample :
    startLoop INITIAL_BACKOFF [Attempt.connectFail] = [1]
    ∧ min (1 * 2 ^ 1) 60 = 2
    ∧ startLoop INITIAL_BACKOFF
        [Attempt.connectFail, Attempt.connectFail, Attempt.registerFail] =
        [1, 2, 1]
    ∧ min (1 * 2 ^ 3) 60 = 8
    ∧ (1 : Nat) ≠ 2 ∧ (1 : Nat) ≠ 8 := by decide

theorem min_double_pow (b : Nat) (i : Nat) :
    min (min (b * 2) 60 * 2 ^ i) 60 = min (b * 2 ^ (i + 1)) 60 := by
  rcases Nat.le_total (b * 2) 60 with h | h
  · rw [min_eq_left h, pow_succ]
    ring_nf
  · rw [min_eq_right h]
    have h1 : (60 : Nat) ≤ 60 * 2 ^ i :=
      Nat.le_mul_of_pos_right _ (pow_pos (by norm_num) i)
    have h2 : (60 : Nat) ≤ b * 2 ^ (i + 1) := by
      calc (60 : Nat) ≤ b * 2 := h
        _ ≤ b * 2 * 2 ^ i := Nat.le_mul_of_pos_right _ (pow_pos (by norm_num) i)
        _ = b * 2 ^ (i + 1) := by rw [pow_succ]; ring
    rw [min_eq_right h1, min_eq_right h2]

theorem startLoop_connectFail :
    ∀ (n : Nat) (b : Nat), b ≤ 60 →
      startLoop b (List.replicate n Attempt.connectFail) =
        (List.range n).map fun i => min (b * 2 ^ i) 60
  | 0, b, _ => by simp [startLoop]
  | n + 1, b, hb => by
    have ih := startLoop_connectFail n (min (b * 2) 60) (min_le_right _ _)
    rw [List.replicate_succ, List.range_succ_eq_map]
    simp only [startLoop, resetOnConnect, BACKOFF_MULTIPLIER, MAX_BACKOFF, ih,
      List.map_cons, List.map_map]
    congr 1
    · rw [pow_zero, Nat.mul_one, min_eq_left hb]
    · apply List.map_congr_left
      intro i _
      simp only [Function.comp_apply]
      exact min_double_pow b i

/-- C2 corrected: starting from the floor, the delay before attempt
`n+1` after `n` consecutive failed or dropped attempts is
`min(1 * 2^(n-1), 60)` (the delays are `1, 2, 4, ..., 60`), i.e. the
`i`-th delay (0-based) is `min(1 * 2^i, 60)`; and the delay resets to
the floor 1 as soon as the websocket connection is established —
before registration, not at `Serving` entry — so both an attempt that
drops after serving and an attempt that fails during registration
restart the delay sequence at 1. -/
theorem C2_amended_backoff (n b : Nat) (rest : List Attempt) :
    startLoop INITIAL_BACKOFF (List.replicate n Attempt.connectFail) =
      (List.range n).map
        (fun i => min (INITIAL_BACKOFF * BACKOFF_MULTIPLIER ^ i) MAX_BACKOFF)
    ∧ startLoop b (Attempt.serveDrop :: rest) =
        INITIAL_BACKOFF :: startLoop 2 rest
    ∧ startLoop b (Attempt.registerFail :: rest) =
        INITIAL_BACKOFF :: startLoop 2 rest := by
  refine ⟨?_, ?_, ?_⟩
  · simpa [INITIAL_BACKOFF, BACKOFF_MULTIPLIER, MAX_BACKOFF] using
      startLoop_connectFail n 1 (by norm_num)
  · simp [startLoop, resetOnConnect, INITIAL_BACKOFF, BACKOFF_MULTIPLIER,
      MAX_BACKOFF]
  · simp [startLoop, resetOnConnect, INITIAL_BACKOFF, BACKOFF_MULTIPLIER,
      MAX_BACKOFF]

/-- C4: for every unary (non-streaming) job with the connection up,
exactly one of a `chat_completion_response` or an `error` envelope is
emitted — never both, never zero: the response wraps the endpoint's
body verbatim on success, the error carries the status on an
endpoint-reported failure. -/
theorem C4_unary_exactly_one (loads : String → Option Json) (ep : Endpoint)
    (request_id : Json) (fields : List (String × Json))
    (hs : (dictGetD fields "stream" (Json.bool false)).truthy = false) :
    (∀ body, ep.post (Json.obj fields) = PostOutcome.success body →
      handle_chat_completion true loads ep request_id (Json.obj fields) =
        ([Outbound.response request_id
            (Response.chatCompletionResponse body)], none))
    ∧ (∀ code, ep.post (Json.obj fields) = PostOutcome.statusError code →
      handle_chat_completion true loads ep request_id (Json.obj fields) =
        ([Outbound.response request_id
            (Response.error ("LLM error: " ++ toString code))], none))
    ∧ (∀ msg, ep.post (Json.obj fields) = PostOutcome.otherError msg →
      handle_chat_completion true loads ep request_id (Json.obj fields) =
        ([Outbound.response request_id (Response.error msg)], none))
    ∧ ((handle_chat_completion true loads ep request_id
          (Json.obj fields)).1.filter Outbound.isResult).length +
        ((handle_chat_completion true loads ep request_id
          (Json.obj fields)).1.filter Outbound.isError).length = 1 := by
  refine ⟨?_, ?_, ?_, ?_⟩
  · intro body hb
    simp [handle_chat_completion, hs, hb, send_response]
  · intro code hc
    simp [handle_chat_completion, hs, hc, send_error, send_response]
  · intro msg hm
    simp [handle_chat_completion, hs, hm, send_error, send_response, PyErr.str]
  · cases hp : ep.post (Json.obj fields) with
    | success body =>
      simp [handle_chat_completion, hs, hp, send_response,
        Outbound.isResult, Outbound.isError]
    | statusError code =>
      simp [handle_chat_completion, hs, hp, send_error, send_response,
        Outbound.isResult, Outbound.isError]
    | otherError msg =>
      simp [handle_chat_completion, hs, hp, send_error, send_response,
        PyErr.str, Outbound.isResult, Outbound.isError]

/-- Endpoint instance for the C4 witness: the unary call succeeds. -/
def epC4 : Endpoint where
  post := fun _ => PostOutcome.success (Json.obj [("ok", Json.bool true)])
  streaming := fun _ => StreamOutcome.yields [] none

/-- `json.loads` instance for the C4 witness (never consulted). -/
def loadsC4 : String → Option Json := fun _ => none

/-- Witness for C4 at a concrete unary job. -/
theorem C4_witness :
    (dictGetD [("stream", Json.bool false)] "stream" (Json.bool false)).truthy
        = false
    ∧ ((∀ body, epC4.post (Json.obj [("stream", Json.bool false)]) =
          PostOutcome.success body →
        handle_chat_completion true loadsC4 epC4 (Json.str "a1")
            (Json.obj [("stream", Json.bool false)]) =
          ([Outbound.response (Json.str "a1")
              (Response.chatCompletionResponse body)], none))
      ∧ (∀ code, epC4.post (Json.obj [("stream", Json.bool false)]) =
          PostOutcome.statusError code →
        handle_chat_completion true loadsC4 epC4 (Json.str "a1")
            (Json.obj [("stream", Json.bool false)]) =
          ([Outbound.response (Json.str "a1")
              (Response.error ("LLM error: " ++ toString code))], none))
      ∧ (∀ msg, epC4.post (Json.obj [("stream", Json.bool false)]) =
          PostOutcome.otherError msg →
        handle_chat_completion true loadsC4 epC4 (Json.str "a1")
            (Json.obj [("stream", Json.bool false)]) =
          ([Outbound.response (Json.str "a1") (Response.error msg)], none))
      ∧ ((handle_chat_completion true loadsC4 epC4 (Json.str "a1")
            (Json.obj [("stream", Json.bool false)])).1.filter
              Outbound.isResult).length +
          ((handle_chat_completion true loadsC4 epC4 (Json.str "a1")
            (Json.obj [("stream", Json.bool false)])).1.filter
              Outbound.isError).length = 1) :=
  ⟨rfl, C4_unary_exactly_one loadsC4 epC4 (Json.str "a1")
    [("stream", Json.bool false)] rfl⟩

theorem processLines_disconnected (loads : String → Option Json)
    (request_id : Json) (interrupt : Option PyErr) :
    ∀ ls : List String, (processLines false loads request_id interrupt ls).1 = []
  | [] => rfl
  | line :: rest => by
    by_cases hd : pyStartsWith line "data: "
    · by_cases hdone : pyDrop line 6 = "[DONE]"
      · simp [processLines, hd, hdone, send_response]
      · cases hl : loads (pyDrop line 6) with
        | none => simp [processLines, hd, hdone, hl]
        | some j => simp [processLines, hd, hdone, hl, send_response]
    · simp [processLines, hd,
        processLines_disconnected loads request_id interrupt rest]

theorem handle_chat_disconnected (loads : String → Option Json) (ep : Endpoint)
    (request_id : Json) (payload : Json) :
    (handle_chat_completion false loads ep request_id payload).1 = [] := by
  cases payload
  case obj fields =>
    cases hst : (dictGetD fields "stream" (Json.bool false)).truthy with
    | false =>
      cases hp : ep.post (Json.obj fields) with
      | success body =>
        simp [handle_chat_completion, hst, hp, send_response, send_error]
      | statusError code =>
        simp [handle_chat_completion, hst, hp, send_error, send_response]
      | otherError msg =>
        simp [handle_chat_completion, hst, hp, send_error, send_response]
    | true =>
      cases hso : ep.streaming (Json.obj fields) with
      | openFail m =>
        simp [handle_chat_completion, hst, hso, handle_streaming_completion,
          send_error, send_response]
      | statusFail c =>
        simp [handle_chat_completion, hst, hso, handle_streaming_completion,
          send_error, send_response]
      | yields ls intr =>
        have h1 := processLines_disconnected loads request_id
          (intr.map PyErr.other) ls
        rcases h2 : (processLines false loads request_id
            (intr.map PyErr.other) ls).2 with _ | e
        · simp [handle_chat_completion, hst, hso, handle_streaming_completion,
            h1, h2]
        · cases e <;>
            simp [handle_chat_completion, hst, hso, handle_streaming_completion,
              h1, h2, send_error, send_response]
  all_goals rfl

theorem handle_message_disconnected (loads : String → Option Json)
    (ep : Endpoint) (m : String) :
    (handle_message false loads ep m).1 = [] := by
  rcases hm : loads m with _ | j
  · simp [handle_message, hm]
  · cases j
    case obj fields =>
      cases h1 : (dictGet fields "type").eqStr "chat_completion" with
      | true =>
        have hc := handle_chat_disconnected loads ep (dictGet fields "id")
          (dictGetD fields "payload" (Json.obj []))
        rcases h2 : (handle_chat_completion false loads ep (dictGet fields "id")
            (dictGetD fields "payload" (Json.obj []))).2 with _ | e
        · simp [handle_message, hm, h1, hc, h2]
        · cases ht : (dictGet fields "id").truthy <;>
            simp [handle_message, hm, h1, hc, h2, ht, send_error, send_response]
      | false =>
        cases h2 : (dictGet fields "type").eqStr "models" with
        | true =>
          cases ht : (dictGet fields "id").truthy <;>
            simp [handle_message, hm, h1, h2, ht, handle_models_request,
              send_response, send_error]
        | false =>
          cases h3 : (dictGet fields "type").eqStr "ping" with
          | true =>
            cases ht : (dictGet fields "id").truthy <;>
              simp [handle_message, hm, h1, h2, h3, ht, send_response, send_error]
          | false =>
            simp [handle_message, hm, h1, h2, h3]
    all_goals simp [handle_message, hm]

/-- C5 counterexample: with no active connection, the emit does raise
into the caller's control flow — `send_response` has no exception
handling, so `ws.send` raises `ConnectionClosed` through it, and a
whole `handle_message` task for a ping ends with that uncaught
exception (the `except` block's own `send_error` fails the same way). -/
def loadsC5 : String → Option Json := fun s =>
  if s = "ping-req" then
    some (Json.obj [("id", Json.str "p1"), ("type", Json.str "ping")])
  else none

/-- Endpoint instance for C5 (never consulted). -/
def epC5 : Endpoint where
  post := fun _ => PostOutcome.otherError "unused"
  streaming := fun _ => StreamOutcome.yields [] none

/-- C5 counterexample (see `loadsC5`): the emit raises
`ConnectionClosed` rather than failing with only a logged warning. -/
theorem C5_counterexample :
    (send_response false (Json.str "p1") Response.pong).2 =
      some PyErr.connectionClosed
    ∧ (handle_message false loadsC5 epC5 "ping-req").2 =
      some PyErr.connectionClosed := by
  exact ⟨rfl, rfl⟩

/-- C5 corrected: when no connection is active, the emit raises
`ConnectionClosed` into the caller (it is not merely logged), but the
exception is confined to that Job Handler's task: no envelope is
emitted or buffered by the handler, so the response is dropped with no
replay, and the dispatch loop and process are unaffected. -/
theorem C5_amended_emit (loads : String → Option Json) (ep : Endpoint)
    (request_id : Json) (r : Response) (m : String) :
    send_response false request_id r = ([], some PyErr.connectionClosed)
    ∧ (handle_message false loads ep m).1 = [] :=
  ⟨rfl, handle_message_disconnected loads ep m⟩

theorem processLines_sends (loads : String → Option Json) (request_id : Json)
    (interrupt : Option PyErr) (ls : List String) :
    ∀ o ∈ (processLines true loads request_id interrupt ls).1,
      ∃ r, o = Outbound.response request_id r := by
  intro o ho
  cases hdone : specDoneReached loads ls with
  | true =>
    rw [processLines_done loads request_id interrupt ls hdone] at ho
    simp [chunkEnvs] at ho
    rcases ho with ⟨j, _, rfl⟩ | rfl
    · exact ⟨_, rfl⟩
    · exact ⟨_, rfl⟩
  | false =>
    cases habort : specParseAbort loads ls with
    | true =>
      rw [processLines_abort loads request_id interrupt ls habort] at ho
      simp [chunkEnvs] at ho
      obtain ⟨j, _, rfl⟩ := ho
      exact ⟨_, rfl⟩
    | false =>
      rw [processLines_clean loads request_id interrupt ls hdone habort] at ho
      simp [chunkEnvs] at ho
      obtain ⟨j, _, rfl⟩ := ho
      exact ⟨_, rfl⟩

theorem handle_chat_sends (loads : String → Option Json) (ep : Endpoint)
    (request_id : Json) (payload : Json) :
    ∀ o ∈ (handle_chat_completion true loads ep request_id payload).1,
      ∃ r, o = Outbound.response request_id r := by
  cases payload
  case obj fields =>
    intro o ho
    cases hst : (dictGetD fields "stream" (Json.bool false)).truthy with
    | false =>
      cases hp : ep.post (Json.obj fields) with
      | success body =>
        simp [handle_chat_completion, hst, hp, send_response] at ho
        exact ⟨_, ho⟩
      | statusError code =>
        simp [handle_chat_completion, hst, hp, send_error, send_response] at ho
        exact ⟨_, ho⟩
      | otherError msg =>
        simp [handle_chat_completion, hst, hp, send_error, send_response] at ho
        exact ⟨_, ho⟩
    | true =>
      rcases streamJob_char loads ep request_id fields hst with
        ⟨m, _, heq⟩ | ⟨c, _, heq⟩ | ⟨ls, intr, _, _, heq⟩ |
        ⟨ls, intr, _, _, heq⟩ | ⟨ls, m, _, _, _, heq⟩ | ⟨ls, _, _, _, heq⟩ <;>
        rw [heq] at ho <;> simp [chunkEnvs] at ho
      · exact ⟨_, ho⟩
      · exact ⟨_, ho⟩
      · rcases ho with ⟨j, _, rfl⟩ | rfl
        · exact ⟨_, rfl⟩
        · exact ⟨_, rfl⟩
      · rcases ho with ⟨j, _, rfl⟩ | rfl
        · exact ⟨_, rfl⟩
        · exact ⟨_, rfl⟩
      · rcases ho with ⟨j, _, rfl⟩ | rfl
        · exact ⟨_, rfl⟩
        · exact ⟨_, rfl⟩
      · obtain ⟨j, _, rfl⟩ := ho
        exact ⟨_, rfl⟩
  all_goals intro o ho
  all_goals simp [handle_chat_completion] at ho

theorem handle_message_sends (loads : String → Option Json) (ep : Endpoint)
    (m : String) (fields : List (String × Json))
    (hm : loads m = some (Json.obj fields)) :
    ∀ o ∈ (handle_message true loads ep m).1,
      ∃ r, o = Outbound.response (dictGet fields "id") r := by
  intro o ho
  cases h1 : (dictGet fields "type").eqStr "chat_completion" with
  | true =>
    rcases h2 : (handle_chat_completion true loads ep (dictGet fields "id")
        (dictGetD fields "payload" (Json.obj []))).2 with _ | e
    · simp [handle_message, hm, h1, h2] at ho
      exact handle_chat_sends loads ep _ _ o ho
    · cases ht : (dictGet fields "id").truthy with
      | false =>
        simp [handle_message, hm, h1, h2, ht] at ho
        exact handle_chat_sends loads ep _ _ o ho
      | true =>
        simp [handle_message, hm, h1, h2, ht, send_error, send_response] at ho
        rcases ho with ho | rfl
        · exact handle_chat_sends loads ep _ _ o ho
        · exact ⟨_, rfl⟩
  | false =>
    cases h2 : (dictGet fields "type").eqStr "models" with
    | true =>
      simp [handle_message, hm, h1, h2, handle_models_request,
        send_response] at ho
      exact ⟨_, ho⟩
    | false =>
      cases h3 : (dictGet fields "type").eqStr "ping" with
      | true =>
        simp [handle_message, hm, h1, h2, h3, send_response] at ho
        exact ⟨_, ho⟩
      | false =>
        simp [handle_message, hm, h1, h2, h3] at ho

theorem handle_message_sends_any (loads : String → Option Json) (ep : Endpoint)
    (m : String) :
    ∀ o ∈ (handle_message true loads ep m).1,
      ∃ i r, o = Outbound.response i r := by
  intro o ho
  rcases hm : loads m with _ | j
  · simp [handle_message, hm] at ho
  · cases j
    case obj fields =>
      obtain ⟨r, rfl⟩ := handle_message_sends loads ep m fields hm o ho
      exact ⟨_, _, rfl⟩
    all_goals simp [handle_message, hm] at ho

/-- C6: on every successful connection, exactly one registration
envelope (the static capability list `[MODEL_NAME]`) is emitted, and
it precedes every other outbound envelope and the processing of every
inbound message. -/
theorem C6_register_first (loads : String → Option Json) (ep : Endpoint)
    (msgs : List String) :
    ∃ rest, connect_and_serve loads ep msgs =
        Outbound.register [ MODEL_NAME ] :: rest
      ∧ ∀ o ∈ rest, o.isRegister = false := by
  refine ⟨(msgs.map fun m => (handle_message true loads ep m).1).flatten,
    rfl, ?_⟩
  intro o ho
  rw [List.mem_flatten] at ho
  obtain ⟨l, hl, ho⟩ := ho
  rw [List.mem_map] at hl
  obtain ⟨m, _, rfl⟩ := hl
  obtain ⟨i, r, rfl⟩ := handle_message_sends_any loads ep m o ho
  rfl

theorem startLoop_length (b : Nat) :
    ∀ attempts : List Attempt, (startLoop b attempts).length = attempts.length
  | [] => rfl
  | a :: rest => by simp [startLoop, startLoop_length _ rest]

/-- C7: a missing or empty coordinator address or connector credential
makes `start` exit with status 1 after zero connection attempts;
with both present the loop runs forever — for every finite sequence of
failed attempts it is still running, having retried each one. -/
theorem C7_fatal_config (broker token : Option String)
    (attempts : List Attempt) :
    (envTruthy broker = false ∨ envTruthy token = false →
      start broker token attempts = StartResult.exited 1 0)
    ∧ (envTruthy broker = true → envTruthy token = true →
      start broker token attempts =
        StartResult.running (startLoop INITIAL_BACKOFF attempts)
      ∧ (startLoop INITIAL_BACKOFF attempts).length = attempts.length) := by
  constructor
  · intro h
    rcases h with h | h <;> simp [start, h]
  · intro h1 h2
    exact ⟨by simp [start, h1, h2], startLoop_length _ attempts⟩

/-- Witness for C7: an unset coordinator address exits with status 1
before any attempt; with both settings present the process is still
running after a failed attempt. -/
theorem C7_witness :
    start none (some "tok") [] = StartResult.exited 1 0
    ∧ start (some "wss://broker") (some "tok") [Attempt.connectFail] =
        StartResult.running (startLoop INITIAL_BACKOFF [Attempt.connectFail]) :=
  ⟨(C7_fatal_config none (some "tok") []).1 (Or.inl rfl),
   ((C7_fatal_config (some "wss://broker") (some "tok")
      [Attempt.connectFail]).2 rfl rfl).1⟩

theorem handle_message_ping (loads : String → Option Json) (ep : Endpoint)
    (m : String) (i : Json)
    (hm : loads m = some (Json.obj [("id", i), ("type", Json.str "ping")])) :
    handle_message true loads ep m = ([Outbound.response i Response.pong], none) := by
  simp [handle_message, hm, dictGet, Json.eqStr, send_response, List.lookup]

theorem pings_count (loads : String → Option Json) (ep : Endpoint) :
    ∀ msgs : List String,
      (∀ m ∈ msgs, ∃ i, loads m =
        some (Json.obj [("id", i), ("type", Json.str "ping")])) →
      ((msgs.map fun m => (handle_message true loads ep m).1).flatten).length =
        msgs.length
  | [], _ => rfl
  | m :: rest, h => by
    obtain ⟨i, hi⟩ := h m (List.mem_cons_self m rest)
    have hping := handle_message_ping loads ep m i hi
    have ih := pings_count loads ep rest fun x hx => h x (List.mem_cons_of_mem _ hx)
    rw [List.map_cons, List.flatten_cons, List.length_append, hping, ih]
    show 1 + rest.length = rest.length + 1
    omega

/-- C8: a malformed (undecodable) inbound envelope is discarded without
terminating the serving connection: with one malformed envelope
followed by N well-formed ping requests, the envelope trace is the
same as without the malformed envelope, and consists of the
registration envelope plus exactly N handled responses. -/
theorem C8_malformed_skipped (loads : String → Option Json) (ep : Endpoint)
    (mal : String) (msgs : List String) (hmal : loads mal = none)
    (hok : ∀ m ∈ msgs, ∃ i, loads m =
      some (Json.obj [("id", i), ("type", Json.str "ping")])) :
    connect_and_serve loads ep (mal :: msgs) = connect_and_serve loads ep msgs
    ∧ (connect_and_serve loads ep (mal :: msgs)).length = msgs.length + 1 := by
  have h0 : (handle_message true loads ep mal).1 = [] := by
    simp [handle_message, hmal]
  have h1 : connect_and_serve loads ep (mal :: msgs) =
      connect_and_serve loads ep msgs := by
    simp [connect_and_serve, h0]
  refine ⟨h1, ?_⟩
  rw [h1]
  simp [connect_and_serve, pings_count loads ep msgs hok]

/-- `json.loads` instance for the C8 witness. -/
def loadsC8 : String → Option Json := fun s =>
  if s = "p1" then
    some (Json.obj [("id", Json.str "1"), ("type", Json.str "ping")])
  else if s = "p2" then
    some (Json.obj [("id", Json.str "2"), ("type", Json.str "ping")])
  else none

/-- Endpoint instance for C8 (never consulted by pings). -/
def epC8 : Endpoint where
  post := fun _ => PostOutcome.otherError "unused"
  streaming := fun _ => StreamOutcome.yields [] none

/-- Witness for C8: one malformed envelope followed by two pings yields
the registration envelope plus exactly two responses. -/
theorem C8_witness :
    loadsC8 "bad json" = none
    ∧ connect_and_serve loadsC8 epC8 ("bad json" :: ["p1", "p2"]) =
        connect_and_serve loadsC8 epC8 ["p1", "p2"]
    ∧ (connect_and_serve loadsC8 epC8 ("bad json" :: ["p1", "p2"])).length = 3 := by
  have hok : ∀ m ∈ ["p1", "p2"], ∃ i, loadsC8 m =
      some (Json.obj [("id", i), ("type", Json.str "ping")]) := by
    intro x hx
    simp only [List.mem_cons, List.not_mem_nil, or_false] at hx
    rcases hx with rfl | rfl
    · exact ⟨Json.str "1", rfl⟩
    · exact ⟨Json.str "2", rfl⟩
  exact ⟨rfl,
    (C8_malformed_skipped loadsC8 epC8 "bad json" ["p1", "p2"] rfl hok).1,
    (C8_malformed_skipped loadsC8 epC8 "bad json" ["p1", "p2"] rfl hok).2⟩

/-- C9: every response envelope is stamped with the triggering
request's `id` unconditionally; in particular a ping request with no
`id` field is still answered, with a null `id`, rather than being
suppressed. -/
theorem C9_id_stamping (loads : String → Option Json) (ep : Endpoint)
    (m : String) :
    (∀ fields, loads m = some (Json.obj fields) →
      ∀ o ∈ (handle_message true loads ep m).1,
        ∃ r, o = Outbound.response (dictGet fields "id") r)
    ∧ (loads m = some (Json.obj [("type", Json.str "ping")]) →
      handle_message true loads ep m =
        ([Outbound.response Json.null Response.pong], none)) := by
  constructor
  · intro fields hm o ho
    exact handle_message_sends loads ep m fields hm o ho
  · intro hm
    simp [handle_message, hm, dictGet, Json.eqStr, send_response,
      Json.truthy, List.lookup]

/-- `json.loads` instance for the C9 witness: a ping with no `id`. -/
def loadsC9 : String → Option Json := fun s =>
  if s = "noid-ping" then some (Json.obj [("type", Json.str "ping")])
  else none

/-- Endpoint instance for C9 (never consulted). -/
def epC9 : Endpoint where
  post := fun _ => PostOutcome.otherError "unused"
  streaming := fun _ => StreamOutcome.yields [] none

/-- Witness for C9: the id-less ping is answered with a null-id pong. -/
theorem C9_witness :
    loadsC9 "noid-ping" = some (Json.obj [("type", Json.str "ping")])
    ∧ handle_message true loadsC9 epC9 "noid-ping" =
        ([Outbound.response Json.null Response.pong], none) :=
  ⟨rfl, (C9_id_stamping loadsC9 epC9 "noid-ping").2 rfl⟩

/-- C10: an inbound message that is valid JSON but not an object
produces no response envelope of any kind (the handler task dies on an
`UnboundLocalError` raised inside the `except` block) and the serving
connection survives: the trace over the remaining messages is
unchanged. -/
theorem C10_non_object_dropped (loads : String → Option Json) (ep : Endpoint)
    (m : String) (j : Json) (rest : List String)
    (hm : loads m = some j) (hobj : j.isObj = false) :
    handle_message true loads ep m = ([], some PyErr.unboundLocal)
    ∧ connect_and_serve loads ep (m :: rest) = connect_and_serve loads ep rest := by
  have h1 : handle_message true loads ep m = ([], some PyErr.unboundLocal) := by
    cases j
    case obj fields => rw [Json.isObj] at hobj; cases hobj
    all_goals simp [handle_message, hm]
  exact ⟨h1, by simp [connect_and_serve, h1]⟩

/-- `json.loads` instance for the C10 witness: a bare JSON array. -/
def loadsC10 : String → Option Json := fun s =>
  if s = "[1, 2]" then some (Json.arr [Json.num 1, Json.num 2])
  else none

/-- Endpoint instance for C10 (never consulted). -/
def epC10 : Endpoint where
  post := fun _ => PostOutcome.otherError "unused"
  streaming := fun _ => StreamOutcome.yields [] none

/-- Witness for C10 at the bare-array message. -/
theorem C10_witness :
    loadsC10 "[1, 2]" = some (Json.arr [Json.num 1, Json.num 2])
    ∧ (Json.arr [Json.num 1, Json.num 2]).isObj = false
    ∧ handle_message true loadsC10 epC10 "[1, 2]" =
        ([], some PyErr.unboundLocal)
    ∧ connect_and_serve loadsC10 epC10 ("[1, 2]" :: []) =
        connect_and_serve loadsC10 epC10 [] :=
  ⟨rfl, rfl,
    (C10_non_object_dropped loadsC10 epC10 "[1, 2]"
      (Json.arr [Json.num 1, Json.num 2]) [] rfl rfl).1,
    (C10_non_object_dropped loadsC10 epC10 "[1, 2]"
      (Json.arr [Json.num 1, Json.num 2]) [] rfl rfl).2⟩

/-- Witness for the corrected C2: three failures give delays 1, 2, 4,
and from a climbed backoff of 8 both kinds of successful connect reset
the next delay to 1. -/
theorem C2_witness :
    startLoop INITIAL_BACKOFF (List.replicate 3 Attempt.connectFail) =
      (List.range 3).map
        (fun i => min (INITIAL_BACKOFF * BACKOFF_MULTIPLIER ^ i) MAX_BACKOFF)
    ∧ startLoop 8 (Attempt.serveDrop :: [Attempt.connectFail]) =
        INITIAL_BACKOFF :: startLoop 2 [Attempt.connectFail]
    ∧ startLoop 8 (Attempt.registerFail :: [Attempt.connectFail]) =
        INITIAL_BACKOFF :: startLoop 2 [Attempt.connectFail] :=
  C2_amended_backoff 3 8 [Attempt.connectFail]

/-- Witness for the corrected C5 at the concrete disconnected ping. -/
theorem C5_witness :
    send_response false (Json.str "p1") Response.pong =
      ([], some PyErr.connectionClosed)
    ∧ (handle_message false loadsC5 epC5 "ping-req").1 = [] :=
  C5_amended_emit loadsC5 epC5 (Json.str "p1") Response.pong "ping-req"

/-- `json.loads` instance for the C6 witness (decodes nothing). -/
def loadsC6 : String → Option Json := fun _ => none

/-- Endpoint instance for C6 (never consulted). -/
def epC6 : Endpoint where
  post := fun _ => PostOutcome.otherError "unused"
  streaming := fun _ => StreamOutcome.yields [] none

/-- Witness for C6 on a concrete connection trace. -/
theorem C6_witness :
    ∃ rest, connect_and_serve loadsC6 epC6 ["x"] =
        Outbound.register [ MODEL_NAME ] :: rest
      ∧ ∀ o ∈ rest, o.isRegister = false :=
  C6_register_first loadsC6 epC6 ["x"]

end Connector
